import Mathlib

/-! Profiling handler (`profiling/server.go`)

A shallow embedding of the Go package `profiling`: the `Handler` that gates the
pprof routes behind an `enabled` flag, its `ServeHTTP` and `UpdateFromConfigMap`
methods, `NewHandler` and `NewServer`.

Conventions of the embedding.

* A method with a pointer receiver becomes a function that takes the handler
  state and returns the new handler state.
* The `*zap.SugaredLogger` stored in the handler is modelled by the list of
  entries written to it so far; a logging call appends one entry.
* The `sync.Mutex` of the handler is modelled by the `Lock` / `Unlock` events a
  method performs, recorded in program order together with the reads and writes
  of `enabled` and the calls to the delegate or to the not-found handler.  The
  state of the mutex at any point of a call is recovered by replaying the events
  (`lockHeld`).  Every method pairs its `Lock` with a deferred `Unlock`, a call
  starts with the mutex free.
* An `http.Handler` is a function from the response writer and the request to
  the response writer after the handler has run; the response writer is the
  `httptest.ResponseRecorder` used by the package's test.
* Pointer arguments and fields are taken to be non-nil, except in
  `HandlerRef.UpdateFromConfigMap`, which makes the nil config map and the nil
  logger explicit: a call through a nil pointer ends in `Outcome.panic`.
* Functions of the Go standard library that the package calls
  (`strconv.ParseBool`, `http.NotFoundHandler`, `http.ServeMux`) are transcribed
  from the library, under the library's names.
-/

namespace Profiling

/-! ## Library types: requests, response recorder, handlers -/

/-- The part of `http.Request` that routing looks at. -/
structure Request where
  Method : String
  Path : String
deriving DecidableEq, Repr

/-- The `httptest.ResponseRecorder`: status code, header map, body written so
far, and whether the status line has been written. -/
structure ResponseRecorder where
  Code : Nat
  HeaderMap : List (String × String)
  Body : String
  wroteHeader : Bool
deriving DecidableEq, Repr

/-- The `httptest.NewRecorder()`: code 200, nothing written. -/
def NewRecorder : ResponseRecorder :=
  { Code := 200, HeaderMap := [], Body := "", wroteHeader := false }

/-- The `Header.Set`: replaces the values stored under `key`. -/
def ResponseRecorder.SetHeader (w : ResponseRecorder) (key value : String) : ResponseRecorder :=
  { w with HeaderMap := (w.HeaderMap.filter fun kv => kv.1 != key) ++ [(key, value)] }

/-- The `ResponseRecorder.WriteHeader`: the first status code written wins. -/
def ResponseRecorder.WriteHeader (w : ResponseRecorder) (code : Nat) : ResponseRecorder :=
  if w.wroteHeader then w else { w with Code := code, wroteHeader := true }

/-- The `ResponseRecorder.Write`: writes status 200 when no status was written
yet, then appends to the body. -/
def ResponseRecorder.Write (w : ResponseRecorder) (buf : String) : ResponseRecorder :=
  let w1 := w.WriteHeader 200
  { w1 with Body := w1.Body ++ buf }

/-- An `http.Handler`: its `ServeHTTP(w, r)` as a function of the writer and the
request, returning the writer afterwards. -/
abbrev HttpHandler := ResponseRecorder → Request → ResponseRecorder

/-- The `http.StatusNotFound`. -/
def StatusNotFound : Nat := 404

/-- The `http.StatusOK`. -/
def StatusOK : Nat := 200

/-- The `http.Error(w, error, code)`. -/
def httpError (w : ResponseRecorder) (error : String) (code : Nat) : ResponseRecorder :=
  let w1 := w.SetHeader "Content-Type" "text/plain; charset=utf-8"
  let w2 := w1.SetHeader "X-Content-Type-Options" "nosniff"
  let w3 := w2.WriteHeader code
  w3.Write (error ++ "\n")

/-- The `http.NotFoundHandler()`: replies `404 page not found`. -/
def NotFoundHandler : HttpHandler :=
  fun w _ => httpError w "404 page not found" StatusNotFound

/-! ## Library: `http.ServeMux` -/

/-- An `http.ServeMux`: the registered patterns with their handlers. -/
structure ServeMux where
  entries : List (String × HttpHandler)

/-- The `http.NewServeMux()`. -/
def NewServeMux : ServeMux := { entries := [] }

/-- The `ServeMux.HandleFunc(pattern, handler)`. -/
def ServeMux.HandleFunc (mux : ServeMux) (pattern : String) (f : HttpHandler) : ServeMux :=
  { entries := mux.entries ++ [(pattern, f)] }

/-- The `pathMatch` of `net/http`: a pattern ending in a slash matches every
path below it, any other pattern matches only itself. -/
def pathMatch (pattern path : String) : Bool :=
  match pattern.data.getLast? with
  | none => false
  | some c => if c != '/' then pattern == path else pattern.data.isPrefixOf path.data

/-- The handler selection of `ServeMux`: among the matching patterns the longest
one wins. -/
def ServeMux.find (mux : ServeMux) (path : String) : Option (String × HttpHandler) :=
  mux.entries.foldl
    (fun best e =>
      if pathMatch e.1 path then
        match best with
        | none => some e
        | some b => if b.1.length < e.1.length then some e else some b
      else best)
    none

/-- The `ServeMux.ServeHTTP` on a request whose path is already clean:
dispatches to the selected handler, or to the not-found handler when no pattern
matches.  The redirect with which `net/http` answers a path that is not clean,
or a subtree root given without its trailing slash, is not modelled. -/
def ServeMux.ServeHTTP (mux : ServeMux) : HttpHandler :=
  fun w r =>
    match mux.find r.Path with
    | some e => e.2 w r
    | none => NotFoundHandler w r

/-- The five handlers of `net/http/pprof` that the package registers. -/
structure Pprof where
  Index : HttpHandler
  Cmdline : HttpHandler
  Profile : HttpHandler
  Symbol : HttpHandler
  Trace : HttpHandler

/-! ## Library: `strconv.ParseBool` -/

/-- The `strconv.NumError`. -/
structure NumError where
  Func : String
  Num : String
  Err : String
deriving DecidableEq, Repr

/-- The `strconv.syntaxError(fn, str)`. -/
def syntaxError (fn str : String) : NumError :=
  { Func := fn, Num := str, Err := "invalid syntax" }

/-- The `strconv.ParseBool`: accepts `1, t, T, TRUE, true, True` and
`0, f, F, FALSE, false, False`; any other value is a syntax error.  Returns the
Go pair `(bool, error)`, a nil error being `none`. -/
def ParseBool (str : String) : Bool × Option NumError :=
  if str = "1" ∨ str = "t" ∨ str = "T" ∨ str = "TRUE" ∨ str = "true" ∨ str = "True" then
    (true, none)
  else if str = "0" ∨ str = "f" ∨ str = "F" ∨ str = "FALSE" ∨ str = "false" ∨ str = "False" then
    (false, none)
  else
    (false, some (syntaxError "ParseBool" str))

/-! ## Library: logger and config map -/

/-- One call to the logger. -/
inductive LogEntry where
  | Info (msg : String)
  | Error (msg : String) (err : NumError)
deriving DecidableEq, Repr

/-- The `*zap.SugaredLogger`: the entries written to it so far. -/
structure SugaredLogger where
  entries : List LogEntry
deriving DecidableEq, Repr

/-- The `zap.NewNop().Sugar()` of the test: a logger nothing was written to. -/
def NewNop : SugaredLogger := { entries := [] }

/-- The `%t` verb of `fmt`. -/
def fmtBool (b : Bool) : String := if b then "true" else "false"

/-- The `Infof("Profiling enabled: %t", enabled)` call, with the message
formatted. -/
def SugaredLogger.Infof (l : SugaredLogger) (msg : String) : SugaredLogger :=
  { entries := l.entries ++ [LogEntry.Info msg] }

/-- The `Errorw(msg, zap.Error(err))` call. -/
def SugaredLogger.Errorw (l : SugaredLogger) (msg : String) (err : NumError) : SugaredLogger :=
  { entries := l.entries ++ [LogEntry.Error msg err] }

/-- The `corev1.ConfigMap`: object name and namespace, and the `Data` map (a nil
map is the empty list; a lookup finds the entry stored under the key). -/
structure ConfigMap where
  Namespace : String
  Name : String
  Data : List (String × String)
deriving DecidableEq, Repr

/-- The two-valued map index `v, ok := m[key]`. -/
def mapIndex (m : List (String × String)) (key : String) : Option String :=
  m.lookup key

/-! ## The package -/

/-- The port where profiling information is exposed. -/
def profilingPort : String := ":8008"

/-- The key of the config map that says whether profiling is enabled. -/
def profilingKey : String := "profiling.enable"

/-- What a method does to the mutex, the flag and the inner handlers, in program
order. -/
inductive Event where
  | Lock
  | Unlock
  | readEnabled (v : Bool)
  | writeEnabled (v : Bool)
  | serveDelegate (r : Request)
  | serveNotFound (r : Request)
deriving DecidableEq, Repr

/-- The `Handler` struct: the flag, the main HTTP handler and the logger (the
mutex is carried by the events). -/
structure Handler where
  enabled : Bool
  handler : HttpHandler
  log : SugaredLogger

/-- The `NewHandler(logger)`: registers the five pprof routes on a new mux and
returns a handler that is not enabled. -/
def NewHandler (pprof : Pprof) (logger : SugaredLogger) : Handler :=
  let pprofPrefix := "/debug/pprof/"
  let mux := NewServeMux
  let mux := mux.HandleFunc pprofPrefix pprof.Index
  let mux := mux.HandleFunc (pprofPrefix ++ "cmdline") pprof.Cmdline
  let mux := mux.HandleFunc (pprofPrefix ++ "profile") pprof.Profile
  let mux := mux.HandleFunc (pprofPrefix ++ "symbol") pprof.Symbol
  let mux := mux.HandleFunc (pprofPrefix ++ "trace") pprof.Trace
  { enabled := false, handler := mux.ServeHTTP, log := logger }

/-- The `Handler.ServeHTTP(w, r)`: locks, defers the unlock, and serves through
the main handler when enabled, through the not-found handler otherwise.
Returns the handler state, the response writer and the events of the call. -/
def Handler.ServeHTTP (h : Handler) (w : ResponseRecorder) (r : Request) :
    Handler × ResponseRecorder × List Event :=
  if h.enabled then
    (h, h.handler w r, [Event.Lock, Event.readEnabled true, Event.serveDelegate r, Event.Unlock])
  else
    (h, NotFoundHandler w r,
      [Event.Lock, Event.readEnabled false, Event.serveNotFound r, Event.Unlock])

/-- The `Handler.UpdateFromConfigMap(configMap)`: returns early when the key is
missing, logs an error and returns when the value does not parse, otherwise
logs the value, locks, defers the unlock and stores the value. -/
def Handler.UpdateFromConfigMap (h : Handler) (configMap : ConfigMap) : Handler × List Event :=
  match mapIndex configMap.Data profilingKey with
  | none => (h, [])
  | some profiling =>
    match ParseBool profiling with
    | (_, some err) => ({ h with log := h.log.Errorw "Failed to update profiling" err }, [])
    | (enabled, none) =>
      let h1 := { h with log := h.log.Infof ("Profiling enabled: " ++ fmtBool enabled) }
      ({ h1 with enabled := enabled }, [Event.Lock, Event.writeEnabled enabled, Event.Unlock])

/-- The `http.Server` fields that `NewServer` sets. -/
structure Server where
  Addr : String
  Handler : HttpHandler

/-- The `NewServer(handler)`. -/
def NewServer (handler : HttpHandler) : Server :=
  { Addr := profilingPort, Handler := handler }

/-! ## Nil pointers and panics -/

/-- How a Go call ends: it returns, or it panics with a run-time error. -/
inductive Outcome (α : Type) where
  | returned (a : α)
  | panic (msg : String)

/-- Whether the call ended in a panic. -/
def Outcome.isPanic {α : Type} : Outcome α → Bool
  | Outcome.returned _ => false
  | Outcome.panic _ => true

/-- The run-time error of a method call or field access through a nil pointer. -/
def nilDereference : String :=
  "runtime error: invalid memory address or nil pointer dereference"

/-- The `Handler` struct with its `log` field as the pointer it is: `none` is a
nil `*zap.SugaredLogger`. -/
structure HandlerRef where
  enabled : Bool
  handler : HttpHandler
  log : Option SugaredLogger

/-- A handler whose logger pointer is not nil. -/
def Handler.toRef (h : Handler) : HandlerRef :=
  { enabled := h.enabled, handler := h.handler, log := some h.log }

/-- The `Handler.UpdateFromConfigMap(configMap)` with the pointers explicit:
`configMap` is a `*corev1.ConfigMap`, `none` being nil.  Reading
`configMap.Data` through a nil pointer panics, and so does a logging call on a
nil logger; the index of a nil or empty `Data` map and `ParseBool` do not. -/
def HandlerRef.UpdateFromConfigMap (h : HandlerRef) (configMap : Option ConfigMap) :
    Outcome (HandlerRef × List Event) :=
  match configMap with
  | none => Outcome.panic nilDereference
  | some cm =>
    match mapIndex cm.Data profilingKey with
    | none => Outcome.returned (h, [])
    | some profiling =>
      match ParseBool profiling with
      | (_, some err) =>
        match h.log with
        | none => Outcome.panic nilDereference
        | some l =>
          Outcome.returned
            ({ h with log := some (l.Errorw "Failed to update profiling" err) }, [])
      | (enabled, none) =>
        match h.log with
        | none => Outcome.panic nilDereference
        | some l =>
          let h1 : HandlerRef :=
            { h with log := some (l.Infof ("Profiling enabled: " ++ fmtBool enabled)) }
          Outcome.returned
            ({ h1 with enabled := enabled },
              [Event.Lock, Event.writeEnabled enabled, Event.Unlock])

/-! ## Observations on a call -/

/-- The log entries a call wrote: what the logger holds after the call beyond
what it held before. -/
def emitted (before after : SugaredLogger) : List LogEntry :=
  after.entries.drop before.entries.length

/-- The state of the mutex after an event, from its state before. -/
def mutexAfter (held : Bool) : Event → Bool
  | Event.Lock => true
  | Event.Unlock => false
  | _ => held

/-- The state of the mutex after the events, replayed from a free mutex. -/
def lockHeld (es : List Event) : Bool :=
  es.foldl mutexAfter false

/-- The state of the mutex at each event selected by `p`, replaying the events
from the state `held`. -/
def heldAt (p : Event → Bool) : Bool → List Event → List Bool
  | _, [] => []
  | held, e :: es =>
    if p e then held :: heldAt p (mutexAfter held e) es else heldAt p (mutexAfter held e) es

/-- Selects the calls to the main handler. -/
def isDelegateCall : Event → Bool
  | Event.serveDelegate _ => true
  | _ => false

/-- Selects the reads of the `enabled` field. -/
def isReadEnabled : Event → Bool
  | Event.readEnabled _ => true
  | _ => false

/-- The requests passed to the main handler, in order. -/
def delegateCalls (es : List Event) : List Request :=
  es.filterMap fun e => match e with
    | Event.serveDelegate r => some r
    | _ => none

/-- The requests passed to the not-found handler, in order. -/
def notFoundCalls (es : List Event) : List Request :=
  es.filterMap fun e => match e with
    | Event.serveNotFound r => some r
    | _ => none

/-- Equality of two strings ignoring letter case. -/
def equalFold (a b : String) : Bool :=
  a.data.map Char.toLower == b.data.map Char.toLower

/-- Selects the writes of the `enabled` field. -/
def isWriteEnabled : Event → Bool
  | Event.writeEnabled _ => true
  | _ => false

/-- Whether the events of a call contain a write of the `enabled` field. -/
def writesEnabled (es : List Event) : Bool :=
  es.any isWriteEnabled

/-- Replays the `Lock` and `Unlock` events of one goroutine against a
`sync.Mutex` in the state `held`: `Lock` on a held mutex never returns and
`Unlock` on a free mutex is a fatal error, both give `none`; otherwise the
state of the mutex after the events. -/
def replayMutex : Bool → List Event → Option Bool
  | held, [] => some held
  | held, Event.Lock :: es => if held then none else replayMutex true es
  | held, Event.Unlock :: es => if held then replayMutex false es else none
  | held, _ :: es => replayMutex held es

/-- The handler after the config maps were applied in order, each with
`UpdateFromConfigMap`. -/
def updateAll (h : Handler) (cms : List ConfigMap) : Handler :=
  cms.foldl (fun acc cm => (acc.UpdateFromConfigMap cm).1) h

/-- The boolean a config map carries at `profiling.enable`, when the key is
present and its value is a valid boolean string. -/
def flagOf (cm : ConfigMap) : Option Bool :=
  match mapIndex cm.Data profilingKey with
  | none => none
  | some s =>
    match ParseBool s with
    | (b, none) => some b
    | (_, some _) => none

/-- The boolean carried by the last config map of the sequence that carries
one. -/
def lastFlag : List ConfigMap → Option Bool
  | [] => none
  | cm :: rest =>
    match lastFlag rest with
    | some b => some b
    | none => flagOf cm

/-! ## Example data -/

/-- A stand-in for a pprof handler: replies 200 with a fixed body. -/
def okHandler : HttpHandler :=
  fun w _ => (w.WriteHeader StatusOK).Write "ok"

/-- A stand-in for the pprof handlers. -/
def okPprof : Pprof :=
  { Index := okHandler, Cmdline := okHandler, Profile := okHandler, Symbol := okHandler,
    Trace := okHandler }

/-- A config map of the observability config with the given data. -/
def observability (data : List (String × String)) : ConfigMap :=
  { Namespace := "knative-testing", Name := "config-observability", Data := data }

/-- The request of the package's test. -/
def indexRequest : Request := { Method := "GET", Path := "/debug/pprof/" }

/-! ## Lemmas on the embedding -/

theorem mapIndex_none_of_not_mem (m : List (String × String)) (key : String)
    (hk : key ∉ m.map Prod.fst) : mapIndex m key = none := by
  induction m with
  | nil => rfl
  | cons kv m ih =>
    obtain ⟨k, v⟩ := kv
    simp only [List.map_cons, List.mem_cons, not_or] at hk
    have hne : (key == k) = false := by simpa using hk.1
    simp only [mapIndex, List.lookup, hne]
    exact ih hk.2

theorem ParseBool_cases (s : String) :
    (∃ b, ParseBool s = (b, none)) ∨ ParseBool s = (false, some (syntaxError "ParseBool" s)) := by
  unfold ParseBool
  split_ifs
  · exact Or.inl ⟨true, rfl⟩
  · exact Or.inl ⟨false, rfl⟩
  · exact Or.inr rfl

theorem update_absent (h : Handler) (cm : ConfigMap)
    (hk : mapIndex cm.Data profilingKey = none) : h.UpdateFromConfigMap cm = (h, []) := by
  simp only [Handler.UpdateFromConfigMap, hk]

theorem update_ok (h : Handler) (cm : ConfigMap) (s : String) (b : Bool)
    (hk : mapIndex cm.Data profilingKey = some s) (hp : ParseBool s = (b, none)) :
    h.UpdateFromConfigMap cm =
      ({ enabled := b, handler := h.handler,
         log := h.log.Infof ("Profiling enabled: " ++ fmtBool b) },
       [Event.Lock, Event.writeEnabled b, Event.Unlock]) := by
  simp only [Handler.UpdateFromConfigMap, hk, hp]

theorem update_err (h : Handler) (cm : ConfigMap) (s : String) (b : Bool) (err : NumError)
    (hk : mapIndex cm.Data profilingKey = some s) (hp : ParseBool s = (b, some err)) :
    h.UpdateFromConfigMap cm =
      ({ h with log := h.log.Errorw "Failed to update profiling" err }, []) := by
  simp only [Handler.UpdateFromConfigMap, hk, hp]

theorem emitted_append (l : SugaredLogger) (es : List LogEntry) :
    emitted l { entries := l.entries ++ es } = es := by
  simp [emitted]

theorem emitted_self (l : SugaredLogger) : emitted l l = [] := by
  simp [emitted]

theorem update_enabled_eq_flagOf (h : Handler) (cm : ConfigMap) :
    (h.UpdateFromConfigMap cm).1.enabled = (flagOf cm).getD h.enabled := by
  unfold flagOf
  cases hk : mapIndex cm.Data profilingKey with
  | none => rw [update_absent h cm hk]; rfl
  | some s =>
    rcases ParseBool_cases s with ⟨b, hb⟩ | hb
    · rw [update_ok h cm s b hk hb]
      simp only [hb]
      rfl
    · rw [update_err h cm s false _ hk hb]
      simp only [hb]
      rfl

theorem updateAll_cons (h : Handler) (cm : ConfigMap) (rest : List ConfigMap) :
    updateAll h (cm :: rest) = updateAll (h.UpdateFromConfigMap cm).1 rest := rfl

theorem updateAll_append (h : Handler) (xs ys : List ConfigMap) :
    updateAll h (xs ++ ys) = updateAll (updateAll h xs) ys := by
  simp [updateAll, List.foldl_append]

theorem updateAll_enabled (h : Handler) (cms : List ConfigMap) :
    (updateAll h cms).enabled = (lastFlag cms).getD h.enabled := by
  induction cms generalizing h with
  | nil => rfl
  | cons cm rest ih =>
    rw [updateAll_cons, ih, update_enabled_eq_flagOf]
    simp only [lastFlag]
    cases lastFlag rest <;> rfl

theorem ParseBool_of_mem_true (s : String)
    (hs : s ∈ ["1", "t", "T", "TRUE", "true", "True"]) : ParseBool s = (true, none) := by
  simp only [List.mem_cons, List.mem_singleton, List.not_mem_nil, or_false] at hs
  rcases hs with rfl | rfl | rfl | rfl | rfl | rfl <;> decide

theorem ParseBool_of_mem_false (s : String)
    (hs : s ∈ ["0", "f", "F", "FALSE", "false", "False"]) : ParseBool s = (false, none) := by
  simp only [List.mem_cons, List.mem_singleton, List.not_mem_nil, or_false] at hs
  rcases hs with rfl | rfl | rfl | rfl | rfl | rfl <;> decide

theorem ParseBool_of_not_mem (s : String)
    (hs : s ∉ ["1", "t", "T", "TRUE", "true", "True", "0", "f", "F", "FALSE", "false", "False"]) :
    ParseBool s = (false, some (syntaxError "ParseBool" s)) := by
  simp only [List.mem_cons, List.mem_singleton, List.not_mem_nil, or_false, not_or] at hs
  obtain ⟨h1, h2, h3, h4, h5, h6, h7, h8, h9, h10, h11, h12⟩ := hs
  simp [ParseBool, h1, h2, h3, h4, h5, h6, h7, h8, h9, h10, h11, h12]

/-! ## Claims -/

/-- C1: when the value at `profiling.enable` is a valid boolean string, after
`UpdateFromConfigMap` the enabled flag equals the parsed boolean, whatever it
was before, and the call writes exactly one log entry, an informational one. -/
theorem updateFromConfigMap_valid_sets_flag (h : Handler) (cm : ConfigMap) (s : String)
    (b : Bool) (hk : mapIndex cm.Data profilingKey = some s) (hp : ParseBool s = (b, none)) :
    (h.UpdateFromConfigMap cm).1.enabled = b ∧
      emitted h.log (h.UpdateFromConfigMap cm).1.log =
        [LogEntry.Info ("Profiling enabled: " ++ fmtBool b)] := by
  rw [update_ok h cm s b hk hp]
  exact ⟨rfl, emitted_append h.log _⟩

theorem updateFromConfigMap_valid_sets_flag_witness :
    mapIndex (observability [("profiling.enable", "true")]).Data profilingKey = some "true" ∧
      ParseBool "true" = (true, none) ∧
      ((Handler.mk false okHandler NewNop).UpdateFromConfigMap
          (observability [("profiling.enable", "true")])).1.enabled = true ∧
      emitted (Handler.mk false okHandler NewNop).log
          ((Handler.mk false okHandler NewNop).UpdateFromConfigMap
            (observability [("profiling.enable", "true")])).1.log =
        [LogEntry.Info ("Profiling enabled: " ++ fmtBool true)] :=
  ⟨by decide, by decide,
    updateFromConfigMap_valid_sets_flag (Handler.mk false okHandler NewNop)
      (observability [("profiling.enable", "true")]) "true" true (by decide) (by decide)⟩

/-- C2: when the `Data` of the config map does not contain the key
`profiling.enable`, `UpdateFromConfigMap` leaves the enabled flag (and the whole
handler) unchanged and writes no log entry. -/
theorem updateFromConfigMap_absent_noop (h : Handler) (cm : ConfigMap)
    (hk : profilingKey ∉ cm.Data.map Prod.fst) :
    (h.UpdateFromConfigMap cm).1.enabled = h.enabled ∧
      (h.UpdateFromConfigMap cm).1 = h ∧
      emitted h.log (h.UpdateFromConfigMap cm).1.log = [] := by
  rw [update_absent h cm (mapIndex_none_of_not_mem _ _ hk)]
  exact ⟨rfl, rfl, by simp [emitted]⟩

theorem updateFromConfigMap_absent_noop_witness :
    profilingKey ∉ (observability [("metrics.backend", "prometheus")]).Data.map Prod.fst ∧
      ((Handler.mk true okHandler NewNop).UpdateFromConfigMap
          (observability [("metrics.backend", "prometheus")])).1.enabled = true ∧
      ((Handler.mk true okHandler NewNop).UpdateFromConfigMap
          (observability [("metrics.backend", "prometheus")])).1 = Handler.mk true okHandler NewNop ∧
      emitted (Handler.mk true okHandler NewNop).log
          ((Handler.mk true okHandler NewNop).UpdateFromConfigMap
            (observability [("metrics.backend", "prometheus")])).1.log = [] :=
  ⟨by decide,
    updateFromConfigMap_absent_noop (Handler.mk true okHandler NewNop)
      (observability [("metrics.backend", "prometheus")]) (by decide)⟩

/-- C3: when the value at `profiling.enable` is not a valid boolean string,
`UpdateFromConfigMap` leaves the enabled flag unchanged and writes exactly one
log entry, an error entry carrying the parse error, and no informational one. -/
theorem updateFromConfigMap_invalid_logs_error (h : Handler) (cm : ConfigMap) (s : String)
    (hk : mapIndex cm.Data profilingKey = some s) (hp : (ParseBool s).2 ≠ none) :
    (h.UpdateFromConfigMap cm).1.enabled = h.enabled ∧
      emitted h.log (h.UpdateFromConfigMap cm).1.log =
        [LogEntry.Error "Failed to update profiling" (syntaxError "ParseBool" s)] := by
  rcases ParseBool_cases s with ⟨b, hb⟩ | hb
  · rw [hb] at hp
    exact absurd rfl hp
  · rw [update_err h cm s false _ hk hb]
    exact ⟨rfl, emitted_append h.log _⟩

theorem updateFromConfigMap_invalid_logs_error_witness :
    mapIndex (observability [("profiling.enable", "get me some profiles")]).Data profilingKey =
        some "get me some profiles" ∧
      (ParseBool "get me some profiles").2 ≠ none ∧
      ((Handler.mk true okHandler NewNop).UpdateFromConfigMap
          (observability [("profiling.enable", "get me some profiles")])).1.enabled = true ∧
      emitted (Handler.mk true okHandler NewNop).log
          ((Handler.mk true okHandler NewNop).UpdateFromConfigMap
            (observability [("profiling.enable", "get me some profiles")])).1.log =
        [LogEntry.Error "Failed to update profiling"
          (syntaxError "ParseBool" "get me some profiles")] :=
  ⟨by decide, by decide,
    updateFromConfigMap_invalid_logs_error (Handler.mk true okHandler NewNop)
      (observability [("profiling.enable", "get me some profiles")]) "get me some profiles"
      (by decide) (by decide)⟩

/-- C4: when the enabled flag is false, `ServeHTTP` answers every request with
what the not-found handler writes, the main handler is never called, and on a
response writer nothing was written to the status is 404 with the standard
body. -/
theorem serveHTTP_disabled_not_found (h : Handler) (w : ResponseRecorder) (r : Request)
    (hd : h.enabled = false) :
    (h.ServeHTTP w r).2.1 = NotFoundHandler w r ∧
      delegateCalls (h.ServeHTTP w r).2.2 = [] ∧
      notFoundCalls (h.ServeHTTP w r).2.2 = [r] ∧
      (w.wroteHeader = false →
        (h.ServeHTTP w r).2.1.Code = 404 ∧
          (h.ServeHTTP w r).2.1.Body = w.Body ++ "404 page not found\n") := by
  have hs : h.ServeHTTP w r =
      (h, NotFoundHandler w r,
        [Event.Lock, Event.readEnabled false, Event.serveNotFound r, Event.Unlock]) := by
    simp [Handler.ServeHTTP, hd]
  rw [hs]
  refine ⟨rfl, rfl, rfl, fun hw => ?_⟩
  simp [NotFoundHandler, httpError, ResponseRecorder.Write, ResponseRecorder.WriteHeader,
    ResponseRecorder.SetHeader, hw, StatusNotFound]

theorem serveHTTP_disabled_not_found_witness :
    (Handler.mk false okHandler NewNop).enabled = false ∧
      ((Handler.mk false okHandler NewNop).ServeHTTP NewRecorder
          ⟨"GET", "/debug/pprof/profile"⟩).2.1 =
        NotFoundHandler NewRecorder ⟨"GET", "/debug/pprof/profile"⟩ ∧
      delegateCalls ((Handler.mk false okHandler NewNop).ServeHTTP NewRecorder
          ⟨"GET", "/debug/pprof/profile"⟩).2.2 = [] ∧
      notFoundCalls ((Handler.mk false okHandler NewNop).ServeHTTP NewRecorder
          ⟨"GET", "/debug/pprof/profile"⟩).2.2 = [⟨"GET", "/debug/pprof/profile"⟩] ∧
      (NewRecorder.wroteHeader = false →
        ((Handler.mk false okHandler NewNop).ServeHTTP NewRecorder
            ⟨"GET", "/debug/pprof/profile"⟩).2.1.Code = 404 ∧
          ((Handler.mk false okHandler NewNop).ServeHTTP NewRecorder
            ⟨"GET", "/debug/pprof/profile"⟩).2.1.Body =
            NewRecorder.Body ++ "404 page not found\n") :=
  ⟨by decide,
    serveHTTP_disabled_not_found (Handler.mk false okHandler NewNop) NewRecorder
      ⟨"GET", "/debug/pprof/profile"⟩ (by decide)⟩

/-- C5: when the enabled flag is true, the response of `ServeHTTP` is exactly
what the main handler writes for the same writer and the same request; the main
handler is called exactly once, with that request, and the not-found handler is
not called. -/
theorem serveHTTP_enabled_delegates (h : Handler) (w : ResponseRecorder) (r : Request)
    (he : h.enabled = true) :
    (h.ServeHTTP w r).2.1 = h.handler w r ∧
      delegateCalls (h.ServeHTTP w r).2.2 = [r] ∧
      notFoundCalls (h.ServeHTTP w r).2.2 = [] := by
  have hs : h.ServeHTTP w r =
      (h, h.handler w r,
        [Event.Lock, Event.readEnabled true, Event.serveDelegate r, Event.Unlock]) := by
    simp [Handler.ServeHTTP, he]
  rw [hs]
  exact ⟨rfl, rfl, rfl⟩

theorem serveHTTP_enabled_delegates_witness :
    (Handler.mk true okHandler NewNop).enabled = true ∧
      ((Handler.mk true okHandler NewNop).ServeHTTP NewRecorder indexRequest).2.1 =
        (Handler.mk true okHandler NewNop).handler NewRecorder indexRequest ∧
      delegateCalls ((Handler.mk true okHandler NewNop).ServeHTTP NewRecorder indexRequest).2.2 =
        [indexRequest] ∧
      notFoundCalls ((Handler.mk true okHandler NewNop).ServeHTTP NewRecorder indexRequest).2.2 =
        [] :=
  ⟨by decide,
    serveHTTP_enabled_delegates (Handler.mk true okHandler NewNop) NewRecorder indexRequest
      (by decide)⟩

/-- C6, the code at the failing input: `NewHandler` takes the logger only, so
no configuration snapshot reaches it, and the handler it builds is never
enabled at startup: the flag is false whatever the logger and the pprof
handlers are, every request is answered by the not-found handler without a
call to the main handler, and the request for the index gets status 404. -/
theorem newHandler_never_enabled_at_startup (pprof : Pprof) (logger : SugaredLogger)
    (w : ResponseRecorder) (r : Request) :
    (NewHandler pprof logger).enabled = false ∧
      (NewHandler pprof logger).log = logger ∧
      ((NewHandler pprof logger).ServeHTTP w r).2.1 = NotFoundHandler w r ∧
      delegateCalls ((NewHandler pprof logger).ServeHTTP w r).2.2 = [] ∧
      ((NewHandler okPprof NewNop).ServeHTTP NewRecorder indexRequest).2.1.Code = 404 :=
  ⟨rfl, rfl, rfl, rfl, by decide⟩

/-- C7, the code at the failing input: a handler enabled by a first update and
then updated with a config map whose data is empty is still enabled, and
answers the request for the index through the main handler, with status 200. -/
theorem updateFromConfigMap_empty_keeps_enabled :
    (((NewHandler okPprof NewNop).UpdateFromConfigMap
        (observability [("profiling.enable", "true")])).1.UpdateFromConfigMap
          (observability [])).1.enabled = true ∧
      ((((NewHandler okPprof NewNop).UpdateFromConfigMap
        (observability [("profiling.enable", "true")])).1.UpdateFromConfigMap
          (observability [])).1.ServeHTTP NewRecorder indexRequest).2.1.Code = 200 ∧
      delegateCalls ((((NewHandler okPprof NewNop).UpdateFromConfigMap
        (observability [("profiling.enable", "true")])).1.UpdateFromConfigMap
          (observability [])).1.ServeHTTP NewRecorder indexRequest).2.2 = [indexRequest] := by
  decide

/-- C8, counterexample: `tRuE` equals `true` ignoring letter case, yet an update
with it leaves a disabled handler disabled and logs the parse error; likewise
`fAlSe` leaves an enabled handler enabled. -/
theorem updateFromConfigMap_mixed_case_rejected :
    equalFold "tRuE" "true" = true ∧
      ((Handler.mk false okHandler NewNop).UpdateFromConfigMap
          (observability [("profiling.enable", "tRuE")])).1.enabled = false ∧
      ((Handler.mk false okHandler NewNop).UpdateFromConfigMap
          (observability [("profiling.enable", "tRuE")])).1.log.entries =
        [LogEntry.Error "Failed to update profiling" (syntaxError "ParseBool" "tRuE")] ∧
      equalFold "fAlSe" "false" = true ∧
      ((Handler.mk true okHandler NewNop).UpdateFromConfigMap
          (observability [("profiling.enable", "fAlSe")])).1.enabled = true := by
  decide

/-- C8, amended: flag parsing accepts the words only in the spellings `true`,
`TRUE`, `True` and `false`, `FALSE`, `False`, and the aliases `1`, `t` and `0`,
`f`: an update with one of the first group at `profiling.enable` sets enabled
to true, with one of the second group to false, and any other letter-case
variant of the two words is rejected, leaving enabled unchanged. -/
theorem updateFromConfigMap_accepted_spellings (h : Handler) (cm : ConfigMap) (s : String)
    (hk : mapIndex cm.Data profilingKey = some s) :
    (s ∈ ["true", "TRUE", "True", "1", "t"] → (h.UpdateFromConfigMap cm).1.enabled = true) ∧
      (s ∈ ["false", "FALSE", "False", "0", "f"] →
        (h.UpdateFromConfigMap cm).1.enabled = false) ∧
      (equalFold s "true" = true ∨ equalFold s "false" = true →
        s ∉ ["true", "TRUE", "True", "false", "FALSE", "False"] →
        (h.UpdateFromConfigMap cm).1.enabled = h.enabled ∧
          emitted h.log (h.UpdateFromConfigMap cm).1.log =
            [LogEntry.Error "Failed to update profiling" (syntaxError "ParseBool" s)]) := by
  refine ⟨fun hs => ?_, fun hs => ?_, fun hfold hs => ?_⟩
  · have hp : ParseBool s = (true, none) := by
      simp only [List.mem_cons, List.mem_singleton, List.not_mem_nil, or_false] at hs
      rcases hs with rfl | rfl | rfl | rfl | rfl <;> decide
    rw [update_ok h cm s true hk hp]
  · have hp : ParseBool s = (false, none) := by
      simp only [List.mem_cons, List.mem_singleton, List.not_mem_nil, or_false] at hs
      rcases hs with rfl | rfl | rfl | rfl | rfl <;> decide
    rw [update_ok h cm s false hk hp]
  · have halias : ∀ a ∈ ["1", "t", "T", "0", "f", "F"], s ≠ a := by
      intro a ha hsa
      subst hsa
      simp only [List.mem_cons, List.mem_singleton, List.not_mem_nil, or_false] at ha
      rcases ha with rfl | rfl | rfl | rfl | rfl | rfl <;> revert hfold <;> decide
    have hp : ParseBool s = (false, some (syntaxError "ParseBool" s)) := by
      simp only [List.mem_cons, List.mem_singleton, List.not_mem_nil, or_false, not_or] at hs
      have h1 := halias "1" (by decide)
      have h2 := halias "t" (by decide)
      have h3 := halias "T" (by decide)
      have h4 := halias "0" (by decide)
      have h5 := halias "f" (by decide)
      have h6 := halias "F" (by decide)
      obtain ⟨s1, s2, s3, s4, s5, s6⟩ := hs
      simp [ParseBool, h1, h2, h3, h4, h5, h6, s1, s2, s3, s4, s5, s6]
    rw [update_err h cm s false _ hk hp]
    exact ⟨rfl, emitted_append h.log _⟩

theorem updateFromConfigMap_accepted_spellings_witness :
    (mapIndex (observability [("profiling.enable", "TRUE")]).Data profilingKey = some "TRUE" ∧
      "TRUE" ∈ ["true", "TRUE", "True", "1", "t"] ∧
      ((Handler.mk false okHandler NewNop).UpdateFromConfigMap
        (observability [("profiling.enable", "TRUE")])).1.enabled = true) ∧
    (mapIndex (observability [("profiling.enable", "tRuE")]).Data profilingKey = some "tRuE" ∧
      (equalFold "tRuE" "true" = true ∨ equalFold "tRuE" "false" = true) ∧
      "tRuE" ∉ ["true", "TRUE", "True", "false", "FALSE", "False"] ∧
      ((Handler.mk false okHandler NewNop).UpdateFromConfigMap
          (observability [("profiling.enable", "tRuE")])).1.enabled =
        (Handler.mk false okHandler NewNop).enabled ∧
      emitted (Handler.mk false okHandler NewNop).log
          ((Handler.mk false okHandler NewNop).UpdateFromConfigMap
            (observability [("profiling.enable", "tRuE")])).1.log =
        [LogEntry.Error "Failed to update profiling" (syntaxError "ParseBool" "tRuE")]) :=
  ⟨⟨by decide, by decide,
      (updateFromConfigMap_accepted_spellings (Handler.mk false okHandler NewNop)
        (observability [("profiling.enable", "TRUE")]) "TRUE" (by decide)).1 (by decide)⟩,
    ⟨by decide, by decide, by decide,
      (updateFromConfigMap_accepted_spellings (Handler.mk false okHandler NewNop)
        (observability [("profiling.enable", "tRuE")]) "tRuE" (by decide)).2.2
          (by decide) (by decide)⟩⟩

/-- C9: `UpdateFromConfigMap` is idempotent on the enabled flag: applying the
same config map twice in a row gives the enabled value that applying it once
gives, and when the value is a valid boolean this is the parsed value and the
two calls together write exactly two log entries, both informational. -/
theorem updateFromConfigMap_idempotent (h : Handler) (cm : ConfigMap) :
    ((h.UpdateFromConfigMap cm).1.UpdateFromConfigMap cm).1.enabled =
        (h.UpdateFromConfigMap cm).1.enabled ∧
      ∀ s b, mapIndex cm.Data profilingKey = some s → ParseBool s = (b, none) →
        ((h.UpdateFromConfigMap cm).1.UpdateFromConfigMap cm).1.enabled = b ∧
          emitted h.log ((h.UpdateFromConfigMap cm).1.UpdateFromConfigMap cm).1.log =
            [LogEntry.Info ("Profiling enabled: " ++ fmtBool b),
             LogEntry.Info ("Profiling enabled: " ++ fmtBool b)] := by
  constructor
  · cases hk : mapIndex cm.Data profilingKey with
    | none => rw [update_absent h cm hk, update_absent h cm hk]
    | some s =>
      rcases ParseBool_cases s with ⟨b, hb⟩ | hb
      · rw [update_ok h cm s b hk hb, update_ok _ cm s b hk hb]
      · rw [update_err h cm s false _ hk hb, update_err _ cm s false _ hk hb]
  · intro s b hk hb
    rw [update_ok h cm s b hk hb, update_ok _ cm s b hk hb]
    refine ⟨rfl, ?_⟩
    simp [emitted, SugaredLogger.Infof]

theorem updateFromConfigMap_idempotent_witness :
    (((Handler.mk true okHandler NewNop).UpdateFromConfigMap
          (observability [("profiling.enable", "false")])).1.UpdateFromConfigMap
          (observability [("profiling.enable", "false")])).1.enabled =
        ((Handler.mk true okHandler NewNop).UpdateFromConfigMap
          (observability [("profiling.enable", "false")])).1.enabled ∧
      mapIndex (observability [("profiling.enable", "false")]).Data profilingKey = some "false" ∧
      ParseBool "false" = (false, none) ∧
      (((Handler.mk true okHandler NewNop).UpdateFromConfigMap
          (observability [("profiling.enable", "false")])).1.UpdateFromConfigMap
          (observability [("profiling.enable", "false")])).1.enabled = false ∧
      emitted (Handler.mk true okHandler NewNop).log
          (((Handler.mk true okHandler NewNop).UpdateFromConfigMap
            (observability [("profiling.enable", "false")])).1.UpdateFromConfigMap
            (observability [("profiling.enable", "false")])).1.log =
        [LogEntry.Info ("Profiling enabled: " ++ fmtBool false),
         LogEntry.Info ("Profiling enabled: " ++ fmtBool false)] :=
  ⟨(updateFromConfigMap_idempotent (Handler.mk true okHandler NewNop)
      (observability [("profiling.enable", "false")])).1,
    by decide, by decide,
    (updateFromConfigMap_idempotent (Handler.mk true okHandler NewNop)
      (observability [("profiling.enable", "false")])).2 "false" false (by decide) (by decide)⟩

/-- C10, counterexample: for an enabled handler the mutex is held at the moment
`ServeHTTP` calls the main handler, so it is not the case that no lock is held
while the main handler runs. -/
theorem serveHTTP_delegate_runs_locked :
    heldAt isDelegateCall false
        ((Handler.mk true okHandler NewNop).ServeHTTP NewRecorder
          ⟨"GET", "/debug/pprof/profile"⟩).2.2 = [true] ∧
      ¬ ∀ held ∈ heldAt isDelegateCall false
          ((Handler.mk true okHandler NewNop).ServeHTTP NewRecorder
            ⟨"GET", "/debug/pprof/profile"⟩).2.2, held = false := by
  decide

/-- C10, amended: in `ServeHTTP` the mutex is acquired before the enabled flag
is read and released by the deferred unlock only after the main handler (or the
not-found handler) has returned: the flag is read with the mutex held, the main
handler runs with the mutex held, and the mutex is free when the call ends. -/
theorem serveHTTP_holds_lock_until_return (h : Handler) (w : ResponseRecorder) (r : Request) :
    (h.ServeHTTP w r).2.2 =
        [Event.Lock, Event.readEnabled h.enabled,
          if h.enabled then Event.serveDelegate r else Event.serveNotFound r, Event.Unlock] ∧
      heldAt isReadEnabled false (h.ServeHTTP w r).2.2 = [true] ∧
      heldAt isDelegateCall false (h.ServeHTTP w r).2.2 = (if h.enabled then [true] else []) ∧
      lockHeld (h.ServeHTTP w r).2.2 = false := by
  cases he : h.enabled <;> simp [Handler.ServeHTTP, he, heldAt, isReadEnabled, isDelegateCall,
    mutexAfter, lockHeld]

/-- C11: `ServeHTTP` has no effect on the state of the gate: the handler after
the call is the handler before it, with the same enabled flag and the same main
handler, and the call performs no write of the flag.  `UpdateFromConfigMap`
never changes the main handler, and when it changes the enabled flag the key is
present and its value parses to the new flag. -/
theorem serveHTTP_preserves_state (h : Handler) (w : ResponseRecorder) (r : Request)
    (cm : ConfigMap) :
    (h.ServeHTTP w r).1 = h ∧
      (h.ServeHTTP w r).1.enabled = h.enabled ∧
      (h.ServeHTTP w r).1.handler = h.handler ∧
      writesEnabled (h.ServeHTTP w r).2.2 = false ∧
      (h.UpdateFromConfigMap cm).1.handler = h.handler ∧
      ((h.UpdateFromConfigMap cm).1.enabled ≠ h.enabled →
        ∃ s, mapIndex cm.Data profilingKey = some s ∧
          ParseBool s = ((h.UpdateFromConfigMap cm).1.enabled, none)) := by
  have hs : (h.ServeHTTP w r).1 = h := by
    unfold Handler.ServeHTTP
    split_ifs <;> rfl
  have hw : writesEnabled (h.ServeHTTP w r).2.2 = false := by
    unfold Handler.ServeHTTP
    split_ifs <;> rfl
  refine ⟨hs, by rw [hs], by rw [hs], hw, ?_, ?_⟩
  · cases hk : mapIndex cm.Data profilingKey with
    | none => rw [update_absent h cm hk]
    | some s =>
      rcases ParseBool_cases s with ⟨b, hb⟩ | hb
      · rw [update_ok h cm s b hk hb]
      · rw [update_err h cm s false _ hk hb]
  · intro hne
    cases hk : mapIndex cm.Data profilingKey with
    | none =>
      rw [update_absent h cm hk] at hne
      exact absurd rfl hne
    | some s =>
      rcases ParseBool_cases s with ⟨b, hb⟩ | hb
      · refine ⟨s, rfl, ?_⟩
        rw [update_ok h cm s b hk hb]
        exact hb
      · rw [update_err h cm s false _ hk hb] at hne
        exact absurd rfl hne

theorem serveHTTP_preserves_state_witness :
    ((Handler.mk false okHandler NewNop).ServeHTTP NewRecorder indexRequest).1 =
        Handler.mk false okHandler NewNop ∧
      ((Handler.mk false okHandler NewNop).UpdateFromConfigMap
          (observability [("profiling.enable", "true")])).1.enabled ≠
        (Handler.mk false okHandler NewNop).enabled ∧
      ∃ s, mapIndex (observability [("profiling.enable", "true")]).Data profilingKey = some s ∧
        ParseBool s =
          (((Handler.mk false okHandler NewNop).UpdateFromConfigMap
            (observability [("profiling.enable", "true")])).1.enabled, none) :=
  ⟨(serveHTTP_preserves_state (Handler.mk false okHandler NewNop) NewRecorder indexRequest
      (observability [("profiling.enable", "true")])).1,
    by decide,
    (serveHTTP_preserves_state (Handler.mk false okHandler NewNop) NewRecorder indexRequest
      (observability [("profiling.enable", "true")])).2.2.2.2.2 (by decide)⟩

/-- C12: every `UpdateFromConfigMap` call writes at most one log entry: none when
the key is absent, one error entry when the value does not parse, one
informational entry when it parses; `ServeHTTP` writes no log entry, whatever
the enabled flag is. -/
theorem log_entries_per_call (h : Handler) (cm : ConfigMap) (w : ResponseRecorder)
    (r : Request) :
    (emitted h.log (h.UpdateFromConfigMap cm).1.log).length ≤ 1 ∧
      (mapIndex cm.Data profilingKey = none →
        emitted h.log (h.UpdateFromConfigMap cm).1.log = []) ∧
      (∀ s, mapIndex cm.Data profilingKey = some s → (ParseBool s).2 ≠ none →
        emitted h.log (h.UpdateFromConfigMap cm).1.log =
          [LogEntry.Error "Failed to update profiling" (syntaxError "ParseBool" s)]) ∧
      (∀ s b, mapIndex cm.Data profilingKey = some s → ParseBool s = (b, none) →
        emitted h.log (h.UpdateFromConfigMap cm).1.log =
          [LogEntry.Info ("Profiling enabled: " ++ fmtBool b)]) ∧
      emitted h.log (h.ServeHTTP w r).1.log = [] := by
  refine ⟨?_, fun hk => ?_, fun s hk hp => ?_, fun s b hk hp => ?_, ?_⟩
  · cases hk : mapIndex cm.Data profilingKey with
    | none => rw [update_absent h cm hk, emitted_self]; exact Nat.zero_le 1
    | some s =>
      rcases ParseBool_cases s with ⟨b, hb⟩ | hb
      · rw [update_ok h cm s b hk hb]
        exact le_of_eq (congrArg List.length (emitted_append h.log _))
      · rw [update_err h cm s false _ hk hb]
        exact le_of_eq (congrArg List.length (emitted_append h.log _))
  · rw [update_absent h cm hk, emitted_self]
  · rcases ParseBool_cases s with ⟨b, hb⟩ | hb
    · rw [hb] at hp
      exact absurd rfl hp
    · rw [update_err h cm s false _ hk hb]
      exact emitted_append h.log _
  · rw [update_ok h cm s b hk hp]
    exact emitted_append h.log _
  · unfold Handler.ServeHTTP
    split_ifs <;> exact emitted_self h.log

theorem log_entries_per_call_witness :
    (mapIndex (observability []).Data profilingKey = none ∧
      emitted (Handler.mk true okHandler NewNop).log
        ((Handler.mk true okHandler NewNop).UpdateFromConfigMap (observability [])).1.log = []) ∧
    (mapIndex (observability [("profiling.enable", "banana")]).Data profilingKey =
        some "banana" ∧
      (ParseBool "banana").2 ≠ none ∧
      emitted (Handler.mk true okHandler NewNop).log
          ((Handler.mk true okHandler NewNop).UpdateFromConfigMap
            (observability [("profiling.enable", "banana")])).1.log =
        [LogEntry.Error "Failed to update profiling" (syntaxError "ParseBool" "banana")]) ∧
    (mapIndex (observability [("profiling.enable", "0")]).Data profilingKey = some "0" ∧
      ParseBool "0" = (false, none) ∧
      emitted (Handler.mk true okHandler NewNop).log
          ((Handler.mk true okHandler NewNop).UpdateFromConfigMap
            (observability [("profiling.enable", "0")])).1.log =
        [LogEntry.Info ("Profiling enabled: " ++ fmtBool false)]) :=
  ⟨⟨by decide,
      (log_entries_per_call (Handler.mk true okHandler NewNop) (observability []) NewRecorder
        indexRequest).2.1 (by decide)⟩,
    ⟨by decide, by decide,
      (log_entries_per_call (Handler.mk true okHandler NewNop)
        (observability [("profiling.enable", "banana")]) NewRecorder indexRequest).2.2.1
          "banana" (by decide) (by decide)⟩,
    ⟨by decide, by decide,
      (log_entries_per_call (Handler.mk true okHandler NewNop)
        (observability [("profiling.enable", "0")]) NewRecorder indexRequest).2.2.2.1
          "0" false (by decide) (by decide)⟩⟩

/-- C13, counterexample: a nil `*ConfigMap` makes `UpdateFromConfigMap` panic
instead of returning, and so does a config map holding an arbitrary string at
`profiling.enable` when the logger of the handler is nil. -/
theorem updateFromConfigMap_panics_on_nil :
    (NewHandler okPprof NewNop).toRef.UpdateFromConfigMap none =
        Outcome.panic nilDereference ∧
      ((NewHandler okPprof NewNop).toRef.UpdateFromConfigMap none).isPanic = true ∧
      ((HandlerRef.mk false okHandler none).UpdateFromConfigMap
        (some (observability [("profiling.enable", "banana")]))).isPanic = true := by
  refine ⟨rfl, rfl, ?_⟩
  decide

/-- C13, amended: `UpdateFromConfigMap` returns normally for every config map
that is not a nil pointer, whatever its data, when the logger of the handler is
not nil: the call gives the handler and the events of the update, its `Lock`
and `Unlock` replay on a free mutex without a fatal error and leave it free, a
config map with no data gives back the handler as it was, and a string that
does not parse changes nothing but the log, which receives the error.  The call
panics exactly when the config map pointer is nil, or the logger is nil and the
key is present. -/
theorem updateFromConfigMap_returns_unless_nil (h : Handler) (cm : ConfigMap)
    (href : HandlerRef) (configMap : Option ConfigMap) :
    h.toRef.UpdateFromConfigMap (some cm) =
        Outcome.returned ((h.UpdateFromConfigMap cm).1.toRef, (h.UpdateFromConfigMap cm).2) ∧
      replayMutex false (h.UpdateFromConfigMap cm).2 = some false ∧
      (cm.Data = [] → h.toRef.UpdateFromConfigMap (some cm) = Outcome.returned (h.toRef, [])) ∧
      (∀ s, mapIndex cm.Data profilingKey = some s → (ParseBool s).2 ≠ none →
        h.toRef.UpdateFromConfigMap (some cm) =
          Outcome.returned
            (HandlerRef.mk h.enabled h.handler
              (some (h.log.Errorw "Failed to update profiling" (syntaxError "ParseBool" s))),
             [])) ∧
      ((href.UpdateFromConfigMap configMap).isPanic = true ↔
        configMap = none ∨
          (href.log = none ∧
            ∃ cm1 s, configMap = some cm1 ∧ mapIndex cm1.Data profilingKey = some s)) := by
  have hret : h.toRef.UpdateFromConfigMap (some cm) =
      Outcome.returned ((h.UpdateFromConfigMap cm).1.toRef, (h.UpdateFromConfigMap cm).2) := by
    cases hk : mapIndex cm.Data profilingKey with
    | none =>
      rw [update_absent h cm hk]
      simp only [HandlerRef.UpdateFromConfigMap, hk]
    | some s =>
      rcases ParseBool_cases s with ⟨b, hb⟩ | hb
      · rw [update_ok h cm s b hk hb]
        simp only [HandlerRef.UpdateFromConfigMap, hk, hb, Handler.toRef]
      · rw [update_err h cm s false _ hk hb]
        simp only [HandlerRef.UpdateFromConfigMap, hk, hb, Handler.toRef]
  refine ⟨hret, ?_, fun hd => ?_, fun s hk hp => ?_, ?_⟩
  · cases hk : mapIndex cm.Data profilingKey with
    | none => rw [update_absent h cm hk]; rfl
    | some s =>
      rcases ParseBool_cases s with ⟨b, hb⟩ | hb
      · rw [update_ok h cm s b hk hb]; rfl
      · rw [update_err h cm s false _ hk hb]; rfl
  · rw [hret, update_absent h cm (by rw [hd]; rfl)]
  · rcases ParseBool_cases s with ⟨b, hb⟩ | hb
    · rw [hb] at hp
      exact absurd rfl hp
    · rw [hret, update_err h cm s false _ hk hb]
      rfl
  · cases configMap with
    | none => simp [HandlerRef.UpdateFromConfigMap, Outcome.isPanic]
    | some cm1 =>
      cases hk : mapIndex cm1.Data profilingKey with
      | none => simp [HandlerRef.UpdateFromConfigMap, Outcome.isPanic, hk]
      | some s =>
        cases hl : href.log with
        | none =>
          rcases ParseBool_cases s with ⟨b, hb⟩ | hb <;>
            simp [HandlerRef.UpdateFromConfigMap, Outcome.isPanic, hk, hl, hb]
        | some l =>
          rcases ParseBool_cases s with ⟨b, hb⟩ | hb <;>
            simp [HandlerRef.UpdateFromConfigMap, Outcome.isPanic, hk, hl, hb]

theorem updateFromConfigMap_returns_unless_nil_witness :
    ((observability []).Data = [] ∧
      (Handler.mk true okHandler NewNop).toRef.UpdateFromConfigMap (some (observability [])) =
        Outcome.returned ((Handler.mk true okHandler NewNop).toRef, [])) ∧
    (mapIndex (observability [("profiling.enable", "")]).Data profilingKey = some "" ∧
      (ParseBool "").2 ≠ none ∧
      (Handler.mk true okHandler NewNop).toRef.UpdateFromConfigMap
          (some (observability [("profiling.enable", "")])) =
        Outcome.returned
          (HandlerRef.mk true okHandler
            (some (NewNop.Errorw "Failed to update profiling" (syntaxError "ParseBool" ""))),
           [])) ∧
    (mapIndex (observability [("profiling.enable", "ναι ✓")]).Data profilingKey =
        some "ναι ✓" ∧
      (ParseBool "ναι ✓").2 ≠ none ∧
      (Handler.mk false okHandler NewNop).toRef.UpdateFromConfigMap
          (some (observability [("profiling.enable", "ναι ✓")])) =
        Outcome.returned
          (HandlerRef.mk false okHandler
            (some (NewNop.Errorw "Failed to update profiling"
              (syntaxError "ParseBool" "ναι ✓"))),
           [])) :=
  ⟨⟨by decide,
      (updateFromConfigMap_returns_unless_nil (Handler.mk true okHandler NewNop)
        (observability []) (Handler.mk true okHandler NewNop).toRef none).2.2.1 (by decide)⟩,
    ⟨by decide, by decide,
      (updateFromConfigMap_returns_unless_nil (Handler.mk true okHandler NewNop)
        (observability [("profiling.enable", "")])
        (Handler.mk true okHandler NewNop).toRef none).2.2.2.1 "" (by decide) (by decide)⟩,
    ⟨by decide, by decide,
      (updateFromConfigMap_returns_unless_nil (Handler.mk false okHandler NewNop)
        (observability [("profiling.enable", "ναι ✓")])
        (Handler.mk false okHandler NewNop).toRef none).2.2.2.1 "ναι ✓" (by decide)
          (by decide)⟩⟩

/-- C14: for every handler, `NewServer` returns a server whose listen address is
the fixed port `:8008` and whose handler is exactly the one passed in. -/
theorem newServer_addr_and_handler (handler : HttpHandler) :
    (NewServer handler).Addr = ":8008" ∧ (NewServer handler).Handler = handler :=
  ⟨rfl, rfl⟩

/-- C15: after a sequence of config maps is applied in order, the enabled flag
is the boolean of the last config map that carries a valid one, or the initial
flag when none does; a config map whose key is absent or does not parse has no
influence wherever it stands in the sequence; and from a disabled handler the
updates `true`, `banana`, no key leave it enabled, a further `false` leaves it
disabled. -/
theorem updateAll_last_valid_wins (h : Handler) (cms : List ConfigMap) :
    (updateAll h cms).enabled = (lastFlag cms).getD h.enabled ∧
      (lastFlag cms = none → (updateAll h cms).enabled = h.enabled) ∧
      (∀ xs ys cm, cms = xs ++ cm :: ys → flagOf cm = none →
        (updateAll h cms).enabled = (updateAll h (xs ++ ys)).enabled) ∧
      (updateAll (NewHandler okPprof NewNop)
          [observability [("profiling.enable", "true")],
           observability [("profiling.enable", "banana")],
           observability []]).enabled = true ∧
      (updateAll (NewHandler okPprof NewNop)
          [observability [("profiling.enable", "true")],
           observability [("profiling.enable", "banana")],
           observability [],
           observability [("profiling.enable", "false")]]).enabled = false := by
  refine ⟨updateAll_enabled h cms, fun hn => ?_, fun xs ys cm hc hf => ?_, by decide, by decide⟩
  · rw [updateAll_enabled, hn]
    rfl
  · subst hc
    rw [updateAll_append, updateAll_cons, updateAll_enabled _ ys, update_enabled_eq_flagOf, hf,
      updateAll_append, updateAll_enabled _ ys]
    rfl

theorem updateAll_last_valid_wins_witness :
    ([observability [("profiling.enable", "1")], observability [("profiling.enable", "yes")]] =
        [observability [("profiling.enable", "1")]] ++
          observability [("profiling.enable", "yes")] :: [] ∧
      flagOf (observability [("profiling.enable", "yes")]) = none ∧
      (updateAll (Handler.mk false okHandler NewNop)
          [observability [("profiling.enable", "1")],
           observability [("profiling.enable", "yes")]]).enabled =
        (updateAll (Handler.mk false okHandler NewNop)
          ([observability [("profiling.enable", "1")]] ++ [])).enabled) ∧
    (lastFlag [observability [], observability [("profiling.enable", "yes")]] = none ∧
      (updateAll (Handler.mk true okHandler NewNop)
          [observability [], observability [("profiling.enable", "yes")]]).enabled =
        (Handler.mk true okHandler NewNop).enabled) :=
  ⟨⟨by decide, by decide,
      (updateAll_last_valid_wins (Handler.mk false okHandler NewNop)
        [observability [("profiling.enable", "1")],
         observability [("profiling.enable", "yes")]]).2.2.1
        [observability [("profiling.enable", "1")]] []
        (observability [("profiling.enable", "yes")]) (by decide) (by decide)⟩,
    ⟨by decide,
      (updateAll_last_valid_wins (Handler.mk true okHandler NewNop)
        [observability [], observability [("profiling.enable", "yes")]]).2.1 (by decide)⟩⟩

/-- C16: with a value present at `profiling.enable`, `UpdateFromConfigMap`
writes the enabled flag if and only if the value is one of twelve strings: it
sets enabled to true for `1`, `t`, `T`, `TRUE`, `true`, `True`, to false for
`0`, `f`, `F`, `FALSE`, `false`, `False`, and for every other string it takes
the error branch: enabled is unchanged, nothing is written or locked, and the
parse error is logged. -/
theorem updateFromConfigMap_writes_iff_twelve (h : Handler) (cm : ConfigMap) (s : String)
    (hk : mapIndex cm.Data profilingKey = some s) :
    (writesEnabled (h.UpdateFromConfigMap cm).2 = true ↔
        s ∈ ["1", "t", "T", "TRUE", "true", "True", "0", "f", "F", "FALSE", "false", "False"]) ∧
      (s ∈ ["1", "t", "T", "TRUE", "true", "True"] →
        (h.UpdateFromConfigMap cm).1.enabled = true ∧
          (h.UpdateFromConfigMap cm).2 = [Event.Lock, Event.writeEnabled true, Event.Unlock]) ∧
      (s ∈ ["0", "f", "F", "FALSE", "false", "False"] →
        (h.UpdateFromConfigMap cm).1.enabled = false ∧
          (h.UpdateFromConfigMap cm).2 = [Event.Lock, Event.writeEnabled false, Event.Unlock]) ∧
      (s ∉ ["1", "t", "T", "TRUE", "true", "True", "0", "f", "F", "FALSE", "false", "False"] →
        (h.UpdateFromConfigMap cm).1.enabled = h.enabled ∧
          (h.UpdateFromConfigMap cm).2 = [] ∧
          emitted h.log (h.UpdateFromConfigMap cm).1.log =
            [LogEntry.Error "Failed to update profiling" (syntaxError "ParseBool" s)]) := by
  have hsplit : s ∈ ["1", "t", "T", "TRUE", "true", "True", "0", "f", "F", "FALSE", "false",
      "False"] ↔ s ∈ ["1", "t", "T", "TRUE", "true", "True"] ∨
        s ∈ ["0", "f", "F", "FALSE", "false", "False"] := by
    simp only [List.mem_cons, List.mem_singleton, List.not_mem_nil, or_false, or_assoc]
  have htrue : s ∈ ["1", "t", "T", "TRUE", "true", "True"] →
      h.UpdateFromConfigMap cm =
        ({ enabled := true, handler := h.handler,
           log := h.log.Infof ("Profiling enabled: " ++ fmtBool true) },
         [Event.Lock, Event.writeEnabled true, Event.Unlock]) :=
    fun hs => update_ok h cm s true hk (ParseBool_of_mem_true s hs)
  have hfalse : s ∈ ["0", "f", "F", "FALSE", "false", "False"] →
      h.UpdateFromConfigMap cm =
        ({ enabled := false, handler := h.handler,
           log := h.log.Infof ("Profiling enabled: " ++ fmtBool false) },
         [Event.Lock, Event.writeEnabled false, Event.Unlock]) :=
    fun hs => update_ok h cm s false hk (ParseBool_of_mem_false s hs)
  have herr : s ∉ ["1", "t", "T", "TRUE", "true", "True", "0", "f", "F", "FALSE", "false",
      "False"] →
      h.UpdateFromConfigMap cm =
        (Handler.mk h.enabled h.handler
          (h.log.Errorw "Failed to update profiling" (syntaxError "ParseBool" s)), []) :=
    fun hs => update_err h cm s false _ hk (ParseBool_of_not_mem s hs)
  refine ⟨⟨fun hw => ?_, fun hs => ?_⟩, fun hs => ?_, fun hs => ?_, fun hs => ?_⟩
  · by_contra hn
    rw [herr hn] at hw
    exact Bool.false_ne_true hw
  · rcases hsplit.mp hs with ht | hf
    · rw [htrue ht]; rfl
    · rw [hfalse hf]; rfl
  · rw [htrue hs]
    exact ⟨rfl, rfl⟩
  · rw [hfalse hs]
    exact ⟨rfl, rfl⟩
  · rw [herr hs]
    exact ⟨rfl, rfl, emitted_append h.log _⟩

theorem updateFromConfigMap_writes_iff_twelve_witness :
    (mapIndex (observability [("profiling.enable", "T")]).Data profilingKey = some "T" ∧
      "T" ∈ ["1", "t", "T", "TRUE", "true", "True"] ∧
      ((Handler.mk false okHandler NewNop).UpdateFromConfigMap
          (observability [("profiling.enable", "T")])).1.enabled = true ∧
      ((Handler.mk false okHandler NewNop).UpdateFromConfigMap
          (observability [("profiling.enable", "T")])).2 =
        [Event.Lock, Event.writeEnabled true, Event.Unlock]) ∧
    (mapIndex (observability [("profiling.enable", " true ")]).Data profilingKey =
        some " true " ∧
      " true " ∉ ["1", "t", "T", "TRUE", "true", "True", "0", "f", "F", "FALSE", "false",
        "False"] ∧
      ((Handler.mk false okHandler NewNop).UpdateFromConfigMap
          (observability [("profiling.enable", " true ")])).1.enabled =
        (Handler.mk false okHandler NewNop).enabled ∧
      ((Handler.mk false okHandler NewNop).UpdateFromConfigMap
          (observability [("profiling.enable", " true ")])).2 = [] ∧
      emitted (Handler.mk false okHandler NewNop).log
          ((Handler.mk false okHandler NewNop).UpdateFromConfigMap
            (observability [("profiling.enable", " true ")])).1.log =
        [LogEntry.Error "Failed to update profiling" (syntaxError "ParseBool" " true ")]) :=
  ⟨⟨by decide, by decide,
      (updateFromConfigMap_writes_iff_twelve (Handler.mk false okHandler NewNop)
        (observability [("profiling.enable", "T")]) "T" (by decide)).2.1 (by decide)⟩,
    ⟨by decide, by decide,
      (updateFromConfigMap_writes_iff_twelve (Handler.mk false okHandler NewNop)
        (observability [("profiling.enable", " true ")]) " true " (by decide)).2.2.2
          (by decide)⟩⟩

end Profiling
